import Mathlib

/-!
Verification of `segmentation_spleen_scribbles/main.py` (a MONAILabel app
plugin).  The file's behaviour is configuration and orchestration:

* `MyApp.__init__` parses two configuration strings (`tta_enabled`,
  `tta_samples`) with `distutils.util.strtobool` and `int`;
* `init_strategies` / `init_scoring_methods` build name-keyed registries,
  conditionally containing the TTA entries;
* `MyApp.infer` implements the logits hand-off protocol around the base
  framework's inference call: before a SCRIBBLES task it injects the saved
  `"logits"` label URI into the request, after a SEGMENTATION task it saves
  the produced logits file to the datastore and unlinks the temporary file,
  and it unconditionally pops `logits` from the result's `params`.

Python dictionaries are embedded as association lists with first-match
lookup, in-place replacement on assignment and removal on pop; external
collaborators (the datastore, the base inference call, the URI resolution)
are modelled as explicit state plus oracle functions, each of which may
fail, so that error propagation through `infer` is expressible.
-/

namespace SpleenScribbles

/-- Python `d.get(k)`: value at the first binding of `k`, else `None`. -/
def aget {κ ν : Type} [DecidableEq κ] (d : List (κ × ν)) (k : κ) : Option ν :=
  match d with
  | [] => none
  | (k', v) :: rest => if k' = k then some v else aget rest k

/-- Python `d[k] = v`: replace the value at the first binding of `k` in
place, else append a new binding (insertion order is preserved). -/
def aset {κ ν : Type} [DecidableEq κ] (d : List (κ × ν)) (k : κ) (v : ν) :
    List (κ × ν) :=
  match d with
  | [] => [(k, v)]
  | (k', v') :: rest => if k' = k then (k, v) :: rest else (k', v') :: aset rest k v

/-- Python `d.pop(k, None)` restricted to its effect on the mapping:
remove the binding of `k`. -/
def apop {κ ν : Type} [DecidableEq κ] (d : List (κ × ν)) (k : κ) :
    List (κ × ν) :=
  d.filter (fun p => !decide (p.1 = k))

/-- String-keyed, string-valued mapping: the shape of the request dict, of
the result's `params` dict, and of the label metadata dict. -/
abbrev Dict := List (String × String)

/-- Errors surfaced by the embedded operations. `keyError` is raised by the
registry lookup `self._infers[request.get("model")]`; `fileNotFound` by
`os.unlink` on a missing path; `valueError` by `strtobool`/`int` on a
malformed configuration string; `external` stands for any failure raised
inside an external collaborator (datastore, base inference). -/
inductive Err : Type where
  | keyError (key : Option String) : Err
  | fileNotFound (path : String) : Err
  | valueError (value : String) : Err
  | external (msg : String) : Err
deriving DecidableEq, Repr

/-- The task kinds of `monailabel.interfaces.tasks.infer.InferType` that the
plugin's control flow distinguishes, plus representatives of the remaining
kinds (`DEEPGROW`, `OTHERS`) so that "any other kind" is expressible. -/
inductive InferType : Type where
  | SEGMENTATION | SCRIBBLES | DEEPGROW | OTHERS
deriving DecidableEq, Repr

/-- A saved label: its stored value (here: the path that was saved) and
the extra metadata dict passed to `save_label`. -/
structure LabelEntry : Type where
  label : String
  meta : Dict
deriving DecidableEq, Repr

/-- External state touched by `MyApp.infer`: the host framework's label
datastore (image identifier, possibly `None`, mapped to its tag-keyed
labels) and the filesystem (the set of existing temporary-file paths),
per the spec's data model. -/
structure Env : Type where
  labels : List (Option String × List (String × LabelEntry))
  fs : List String
deriving DecidableEq, Repr

/-- Labels saved for an image: the framework's `get_labels_by_image_id`
returns the empty dict for an unknown image. -/
def labelsOf (env : Env) (image : Option String) : List (String × LabelEntry) :=
  (aget env.labels image).getD []

/-- Modelled from the spec: datastore `get_labels_by_image_id`, returning
the tag-to-label mapping of the image's saved labels. -/
def getLabelsStd (env : Env) (image : Option String) : List (String × String) :=
  (labelsOf env image).map (fun p => (p.1, p.2.label))

/-- Modelled from the spec: datastore `save_label image path tag meta`
persists the value under the image identifier and tag. -/
def saveLabelStd (env : Env) (image : Option String) (path tag : String)
    (meta : Dict) : Env :=
  { env with labels := aset env.labels image (aset (labelsOf env image) tag ⟨path, meta⟩) }

/-- `os.unlink path`: remove the file, raising `FileNotFoundError` when it
does not exist. -/
def unlinkStd (env : Env) (path : String) : Except Err Env :=
  if path ∈ env.fs then
    .ok { env with fs := env.fs.filter (fun p => !decide (p = path)) }
  else
    .error (.fileNotFound path)

/-- The base framework's result: per the spec's data model, a mapping
containing a `params` sub-mapping; `rest` stands for its other keys, which
`MyApp.infer` never touches. -/
structure Result : Type where
  params : Dict
  rest : Dict
deriving DecidableEq, Repr

/-- The external operations `MyApp.infer` performs, each allowed to fail:
the three datastore calls, `os.unlink`, and `super().infer`.  Claims about
the concrete hand-off instantiate them with `stdOps`; claims about error
propagation quantify over them. -/
structure Ops : Type where
  getLabelsE : Env → Option String → Except Err (List (String × String))
  labelUriE : Env → String → String → Except Err String
  saveLabelE : Env → Option String → String → String → Dict → Except Err Env
  unlinkE : Env → String → Except Err Env
  baseInferE : Env → Dict → Except Err (Result × Env)

/-- The standard instantiation: the datastore operations act on `Env` as
the spec describes, `uriFn` is the datastore's (read-only) resolution of a
label and tag to its storage URI, and `base` is the framework's
`super().infer`. -/
def stdOps (uriFn : String → String → String)
    (base : Env → Dict → Except Err (Result × Env)) : Ops where
  getLabelsE := fun env image => .ok (getLabelsStd env image)
  labelUriE := fun _ label tag => .ok (uriFn label tag)
  saveLabelE := fun env image path tag meta => .ok (saveLabelStd env image path tag meta)
  unlinkE := unlinkStd
  baseInferE := base

/-- The state of `MyApp` that its methods read: the configuration parsed in
`__init__` (lines 38-44 of `main.py`) and the infer-task registry
`self._infers` that the framework installs from `init_infers` (the task
objects themselves are external; only their `.type` matters to `infer`). -/
structure MyApp : Type where
  model_dir : String
  final_model : String
  mmar : String
  tta_enabled : Nat
  tta_samples : Int
  studies : String
  infers : List (String × InferType)
deriving DecidableEq, Repr

/-- `self._infers[request.get("model")].type`: `none` models the `KeyError`
raised when the `model` value is absent from the registry (or the key is
absent from the request, since `None` is never a registry key). -/
def lookupInfer (app : MyApp) (request : Dict) : Option InferType :=
  match aget request "model" with
  | none => none
  | some m => aget app.infers m

/-- Lines 107-112 of `main.py`: the loop
`for tag, label in saved_labels.items(): if tag == "logits":
request["logits"] = self.datastore().get_label_uri(label, tag)`. -/
def addLogits (ops : Ops) (env : Env) (items : List (String × String))
    (request : Dict) : Except Err Dict :=
  match items with
  | [] => .ok request
  | (tag, label) :: rest =>
      if tag = "logits" then
        match ops.labelUriE env label tag with
        | .error e => .error e
        | .ok uri => addLogits ops env rest (aset request "logits" uri)
      else addLogits ops env rest request

/-- Lines 104-112 of `main.py`: the entry phase of `MyApp.infer`.  The
registry is indexed unconditionally; when the selected task's kind is
SCRIBBLES the saved labels are looked up and the `"logits"` one, if any, is
inserted into the request. -/
def inferPrepare (ops : Ops) (app : MyApp) (env : Env) (request : Dict) :
    Except Err Dict :=
  match lookupInfer app request with
  | none => .error (.keyError (aget request "model"))
  | some ty =>
      if ty = InferType.SCRIBBLES then
        match ops.getLabelsE env (aget request "image") with
        | .error e => .error e
        | .ok saved => addLogits ops env saved request
      else .ok request

/-- Line 124's `result_params.pop("logits", None)`, which mutates the
returned result's `params` in place. -/
def popLogits (result : Result) : Result :=
  { result with params := apop result.params "logits" }

/-- Lines 114-125 of `main.py`: the return phase of `MyApp.infer` applied
to the outcome `br` of the base inference call.  `image` was computed from
the original request at line 102; `request1` is the (possibly mutated)
request, which line 117 indexes the registry with again; `env` is the
external state at the point the base call was made. -/
def inferSave (ops : Ops) (app : MyApp) (image : Option String)
    (request1 : Dict) (br : Except Err (Result × Env)) (env : Env) :
    Except Err Result × Env :=
  match br with
  | .error e => (.error e, env)
  | .ok (result, env1) =>
      match aget result.params "logits" with
      | none => (.ok (popLogits result), env1)
      | some l =>
          if l = "" then
            (.ok (popLogits result), env1)
          else
            match lookupInfer app request1 with
            | none => (.error (.keyError (aget request1 "model")), env1)
            | some ty =>
                if ty = InferType.SEGMENTATION then
                  match ops.saveLabelE env1 image l "logits" [] with
                  | .error e => (.error e, env1)
                  | .ok env2 =>
                      match ops.unlinkE env2 l with
                      | .error e => (.error e, env2)
                      | .ok env3 => (.ok (popLogits result), env3)
                else (.ok (popLogits result), env1)

/-- `MyApp.infer(self, request, datastore=None)`, lines 101-125 of
`main.py`, as a function of the external state.  It returns the outcome
(the result, or the raised error) together with the external state at the
point the call finished or failed.  The `datastore` parameter is accepted,
as in the source, and never read. -/
def infer {α : Type} (ops : Ops) (app : MyApp) (env : Env) (request : Dict)
    (datastoreArg : Option α) : Except Err Result × Env :=
  let image := aget request "image"
  match inferPrepare ops app env request with
  | .error e => (.error e, env)
  | .ok request1 => inferSave ops app image request1 (ops.baseInferE env request1) env

/-- Python `str.lower()` on the ASCII configuration strings this app
reads: lower-case each character. -/
def pyLower (s : String) : String := ⟨s.data.map Char.toLower⟩

/-- CPython `distutils.util.strtobool`: lower-case the value; `y`, `yes`,
`t`, `true`, `on`, `1` give `1`; `n`, `no`, `f`, `false`, `off`, `0` give
`0`; anything else raises `ValueError`. -/
def strtobool (val : String) : Except Err Nat :=
  let v := pyLower val
  if v = "y" ∨ v = "yes" ∨ v = "t" ∨ v = "true" ∨ v = "on" ∨ v = "1" then .ok 1
  else if v = "n" ∨ v = "no" ∨ v = "f" ∨ v = "false" ∨ v = "off" ∨ v = "0" then .ok 0
  else .error (.valueError val)

/-- A run of ASCII digits read as a decimal number, left to right;
`none` as soon as a non-digit appears. -/
def digitsToNat (cs : List Char) : Option Nat :=
  cs.foldl
    (fun acc c =>
      match acc with
      | none => none
      | some n => if c.isDigit then some (n * 10 + (c.toNat - 48)) else none)
    (some 0)

/-- Python `int(s)` on the plain decimal strings this app's configuration
uses: an optional minus sign followed by at least one digit (leading
whitespace, `+`, and underscore separators are not modelled); anything
else raises `ValueError`. -/
def pyInt (s : String) : Except Err Int :=
  match s.data with
  | [] => .error (.valueError s)
  | '-' :: rest =>
      match digitsToNat rest, rest with
      | some n, _ :: _ => .ok (-(n : Int))
      | _, _ => .error (.valueError s)
  | cs =>
      match digitsToNat cs with
      | some n => .ok (n : Int)
      | none => .error (.valueError s)

/-- `MyApp.__init__(app_dir, studies, conf)`, lines 37-56 of `main.py`:
derive the model paths, parse `tta_enabled` (default `"false"`) with
`strtobool` and `tta_samples` (default `"5"`) with `int`.  The infer-task
registry that the framework installs from `init_infers` is passed in
abstractly (its task objects are external; only their kinds matter). -/
def mkMyApp (app_dir studies : String) (conf : Dict)
    (infers : List (String × InferType)) : Except Err MyApp :=
  match strtobool ((aget conf "tta_enabled").getD "false") with
  | .error e => .error e
  | .ok te =>
      match pyInt ((aget conf "tta_samples").getD "5") with
      | .error e => .error e
      | .ok ts =>
          .ok { model_dir := app_dir ++ "/model"
                final_model := app_dir ++ "/model" ++ "/model.pt"
                mmar := "clara_pt_spleen_ct_segmentation_1"
                tta_enabled := te
                tta_samples := ts
                studies := studies
                infers := infers }

/-- The active-learning strategy objects `init_strategies` registers.
`TTA` and `Random` come from the `monailabel` framework; `MyStrategy` is
modelled from the spec: `lib.activelearning.MyStrategy`, the `"first"`
strategy of a sibling library module not shown in the source. -/
inductive Strategy : Type where
  | TTA | Random | MyStrategy
deriving DecidableEq, Repr

/-- `MyApp.init_strategies`, lines 81-87 of `main.py`: `"TTA"` first when
`self.tta_enabled` is truthy, then `"random"` and `"first"`, in dict
insertion order. -/
def init_strategies (app : MyApp) : List (String × Strategy) :=
  (if app.tta_enabled ≠ 0 then [("TTA", Strategy.TTA)] else []) ++
    [("random", Strategy.Random), ("first", Strategy.MyStrategy)]

/-- The arguments of the one scoring method `init_scoring_methods` ever
constructs, `monailabel`'s `TTAScoring` (its `network` argument is an
external model object and its `spacing` floats are not embedded). -/
structure TTAScoring : Type where
  model : String
  num_samples : Int
  spatial_size : Nat × Nat × Nat
deriving DecidableEq, Repr

/-- `MyApp.init_scoring_methods`, lines 89-99 of `main.py`: `"TTA"` with
`num_samples := self.tta_samples` when `self.tta_enabled` is truthy, else
the empty registry. -/
def init_scoring_methods (app : MyApp) : List (String × TTAScoring) :=
  if app.tta_enabled ≠ 0 then
    [("TTA", { model := app.final_model
               num_samples := app.tta_samples
               spatial_size := (128, 128, 64) })]
  else []

/-! Concrete fixtures used to evaluate the theorems on closed inputs. -/

/-- A concrete URI resolution for the datastore oracle. -/
def demoUri (label tag : String) : String := label ++ "@" ++ tag

/-- A concrete app state whose registry holds one task of each relevant
kind. -/
def demoApp : MyApp :=
  { model_dir := "app/model"
    final_model := "app/model/model.pt"
    mmar := "clara_pt_spleen_ct_segmentation_1"
    tta_enabled := 0
    tta_samples := 5
    studies := "st"
    infers := [("seg", InferType.SEGMENTATION), ("scrib", InferType.SCRIBBLES),
               ("other", InferType.OTHERS)] }

/-- An initially empty external state. -/
def env0 : Env := { labels := [], fs := [] }

/-- An external state holding a previously saved `"logits"` label for
image `img1`. -/
def envWithLogits : Env :=
  { labels := [(some "img1", [("logits", ⟨"stored.nii", []⟩)])], fs := [] }

/-- A request selecting the SEGMENTATION-kind task for image `img1`. -/
def segReq : Dict := [("image", "img1"), ("model", "seg")]

/-- A request selecting the SCRIBBLES-kind task for image `img1`. -/
def scribReq : Dict := [("image", "img1"), ("model", "scrib")]

/-- A base inference oracle for a segmentation run: it creates the
temporary logits file `tmp.npy` and reports it in the result's
`params`. -/
def demoBaseSeg : Env → Dict → Except Err (Result × Env) :=
  fun env _ =>
    .ok ({ params := [("logits", "tmp.npy")], rest := [("label", "out.nii")] },
         { env with fs := "tmp.npy" :: env.fs })

/-- A base inference oracle for a scribbles run: no logits in the result
and no change to the external state. -/
def demoBaseScrib : Env → Dict → Except Err (Result × Env) :=
  fun env _ => .ok ({ params := [("label", "final.nii")], rest := [] }, env)

/-- A concrete error raised by a failing external collaborator. -/
def demoErr : Err := .external "boom"

/-- Oracles whose `get_labels_by_image_id` fails. -/
def failGetLabelsOps : Ops :=
  { stdOps demoUri demoBaseScrib with getLabelsE := fun _ _ => .error demoErr }

/-- Oracles whose `get_label_uri` fails. -/
def failUriOps : Ops :=
  { stdOps demoUri demoBaseScrib with labelUriE := fun _ _ _ => .error demoErr }

/-- Oracles whose base inference call fails. -/
def failBaseOps : Ops :=
  { stdOps demoUri demoBaseScrib with baseInferE := fun _ _ => .error demoErr }

/-- Oracles whose `save_label` fails. -/
def failSaveOps : Ops :=
  { stdOps demoUri demoBaseSeg with saveLabelE := fun _ _ _ _ _ => .error demoErr }

/-- A base inference oracle that reports a logits path it never created,
so that `os.unlink` fails. -/
def demoBaseSegNoFile : Env → Dict → Except Err (Result × Env) :=
  fun env _ => .ok ({ params := [("logits", "missing.npy")], rest := [] }, env)

/-- The app state built by `mkMyApp "a" "s" [] []` (all defaults). -/
def demoDefaultApp : MyApp :=
  { model_dir := "a/model"
    final_model := "a/model/model.pt"
    mmar := "clara_pt_spleen_ct_segmentation_1"
    tta_enabled := 0
    tta_samples := 5
    studies := "s"
    infers := [] }

/-- The app state built by `mkMyApp "a" "s" [("tta_enabled", "true")] []`. -/
def demoTtaApp : MyApp := { demoDefaultApp with tta_enabled := 1 }

/-! Dictionary lemmas. -/

theorem aget_aset_self {κ ν : Type} [DecidableEq κ] (d : List (κ × ν)) (k : κ) (v : ν) :
    aget (aset d k v) k = some v := by
  induction d with
  | nil => simp [aset, aget]
  | cons p rest ih =>
      obtain ⟨k', v'⟩ := p
      by_cases h : k' = k <;> simp [aset, aget, h, ih]

theorem aget_aset_ne {κ ν : Type} [DecidableEq κ] (d : List (κ × ν)) (k k' : κ) (v : ν)
    (hne : k ≠ k') : aget (aset d k v) k' = aget d k' := by
  induction d with
  | nil => simp [aset, aget, hne]
  | cons p rest ih =>
      obtain ⟨k'', v''⟩ := p
      by_cases h : k'' = k
      · subst h; simp [aset, aget, hne]
      · by_cases h' : k'' = k' <;> simp [aset, aget, h, h', ih, Ne.symm hne]

theorem aget_apop_self {κ ν : Type} [DecidableEq κ] (d : List (κ × ν)) (k : κ) :
    aget (apop d k) k = none := by
  induction d with
  | nil => simp [apop, aget]
  | cons p rest ih =>
      obtain ⟨k', v'⟩ := p
      by_cases h : k' = k <;>
        simpa [apop, aget, h, List.filter_cons] using ih

/-! Lemmas about the `"logits"`-injection loop. -/

theorem addLogits_no_logits (ops : Ops) (env : Env) (items : List (String × String))
    (request : Dict) (h : ∀ p ∈ items, p.1 ≠ "logits") :
    addLogits ops env items request = .ok request := by
  induction items generalizing request with
  | nil => rfl
  | cons p rest ih =>
      obtain ⟨t, l⟩ := p
      have ht : t ≠ "logits" := h (t, l) (List.mem_cons_self _ _)
      simpa [addLogits, ht] using ih request (fun q hq => h q (List.mem_cons_of_mem _ hq))

theorem addLogits_filter_single (ops : Ops) (env : Env) (items : List (String × String))
    (request : Dict) (lab u : String)
    (hf : items.filter (fun p => decide (p.1 = "logits")) = [("logits", lab)])
    (hu : ops.labelUriE env lab "logits" = .ok u) :
    addLogits ops env items request = .ok (aset request "logits" u) := by
  induction items generalizing request with
  | nil => simp at hf
  | cons p rest ih =>
      obtain ⟨t, l⟩ := p
      by_cases ht : t = "logits"
      · subst ht
        simp [List.filter_cons] at hf
        obtain ⟨hl, hrest⟩ := hf
        subst hl
        have hnone : ∀ p ∈ rest, p.1 ≠ "logits" := by
          intro q hq
          obtain ⟨a, b⟩ := q
          exact hrest a b hq
        simp [addLogits, hu]
        exact addLogits_no_logits ops env rest _ hnone
      · have hf' : rest.filter (fun p => decide (p.1 = "logits")) = [("logits", lab)] := by
          simpa [List.filter_cons, ht] using hf
        simpa [addLogits, ht] using ih request hf'

theorem addLogits_preserves_other_keys (ops : Ops) (env : Env)
    (items : List (String × String)) (request request1 : Dict) (k : String)
    (hk : k ≠ "logits") (h : addLogits ops env items request = .ok request1) :
    aget request1 k = aget request k := by
  induction items generalizing request with
  | nil => simp [addLogits] at h; subst h; rfl
  | cons p rest ih =>
      obtain ⟨t, l⟩ := p
      by_cases ht : t = "logits"
      · subst ht
        simp only [addLogits, if_pos rfl] at h
        cases hu : ops.labelUriE env l "logits" with
        | error e => rw [hu] at h; cases h
        | ok u =>
            rw [hu] at h
            have := ih (aset request "logits" u) h
            rw [this, aget_aset_ne _ _ _ _ (fun he => hk he.symm)]
      · simp only [addLogits, if_neg ht] at h
        exact ih request h

/-! Lemmas about the phases of `infer`. -/

theorem stdOps_getLabelsE (uriFn : String → String → String)
    (base : Env → Dict → Except Err (Result × Env)) (env : Env) (image : Option String) :
    (stdOps uriFn base).getLabelsE env image = .ok (getLabelsStd env image) := rfl

theorem stdOps_labelUriE (uriFn : String → String → String)
    (base : Env → Dict → Except Err (Result × Env)) (env : Env) (label tag : String) :
    (stdOps uriFn base).labelUriE env label tag = .ok (uriFn label tag) := rfl

theorem stdOps_saveLabelE (uriFn : String → String → String)
    (base : Env → Dict → Except Err (Result × Env)) (env : Env) (image : Option String)
    (path tag : String) (meta : Dict) :
    (stdOps uriFn base).saveLabelE env image path tag meta
      = .ok (saveLabelStd env image path tag meta) := rfl

theorem stdOps_unlinkE (uriFn : String → String → String)
    (base : Env → Dict → Except Err (Result × Env)) :
    (stdOps uriFn base).unlinkE = unlinkStd := rfl

theorem stdOps_baseInferE (uriFn : String → String → String)
    (base : Env → Dict → Except Err (Result × Env)) :
    (stdOps uriFn base).baseInferE = base := rfl

theorem inferSave_ok_no_logits (ops : Ops) (app : MyApp) (image : Option String)
    (request1 : Dict) (br : Except Err (Result × Env)) (env : Env) (r : Result)
    (h : (inferSave ops app image request1 br env).1 = Except.ok r) :
    aget r.params "logits" = none := by
  unfold inferSave at h
  repeat' split at h
  all_goals simp_all [popLogits, aget_apop_self]
  all_goals (subst h; simp [aget_apop_self])

/-- C3: for every call to `MyApp.infer` that returns a result — whatever
the selected task's kind and whether or not a logits value was just saved —
the returned result's `params` mapping has no `logits` key. -/
theorem infer_result_never_has_logits {α : Type} (ops : Ops) (app : MyApp)
    (env : Env) (request : Dict) (d : Option α) (r : Result)
    (h : (infer ops app env request d).1 = Except.ok r) :
    aget r.params "logits" = none := by
  unfold infer at h
  split at h
  · simp at h
  · exact inferSave_ok_no_logits _ _ _ _ _ _ _ h

/-- Witness for C3: a concrete call through a task of kind OTHERS whose
base result does contain `params.logits`; the returned result has none. -/
theorem infer_result_never_has_logits_witness :
    (infer (stdOps demoUri demoBaseSeg) demoApp env0 [("image", "img1"), ("model", "other")]
        (none : Option Unit)).1
      = Except.ok { params := [], rest := [("label", "out.nii")] } ∧
    aget ({ params := [], rest := [("label", "out.nii")] } : Result).params "logits" = none :=
  ⟨by rfl,
   infer_result_never_has_logits (stdOps demoUri demoBaseSeg) demoApp env0
     [("image", "img1"), ("model", "other")] (none : Option Unit)
     { params := [], rest := [("label", "out.nii")] } (by rfl)⟩

/-- C9: when the request's `model` value is absent from the infer-task
registry (or the key is absent), `infer` fails on the registry lookup in
the kind check, before the base inference call runs, and returns the
external state unchanged: neither the datastore nor the filesystem is
touched by the failed call. -/
theorem infer_missing_model_fails_before_base {α : Type} (ops : Ops) (app : MyApp)
    (env : Env) (request : Dict) (d : Option α)
    (h : lookupInfer app request = none) :
    infer ops app env request d = (.error (.keyError (aget request "model")), env) := by
  simp [infer, inferPrepare, h]

/-- Witness for C9: a request naming an unregistered model fails with a
`KeyError` and leaves a non-trivial external state exactly as it was. -/
theorem infer_missing_model_fails_before_base_witness :
    lookupInfer demoApp [("image", "img1"), ("model", "nope")] = none ∧
    infer (stdOps demoUri demoBaseSeg) demoApp envWithLogits
        [("image", "img1"), ("model", "nope")] (none : Option Unit)
      = (.error (.keyError (some "nope")), envWithLogits) :=
  ⟨by rfl,
   infer_missing_model_fails_before_base (stdOps demoUri demoBaseSeg) demoApp envWithLogits
     [("image", "img1"), ("model", "nope")] (none : Option Unit) (by rfl)⟩

/-- C10: `infer` never reads its `datastore` parameter: two calls differing
only in that argument (of any two types, `None` included) run identically —
same outcome and same final external state. -/
theorem infer_ignores_datastore_argument {α β : Type} (ops : Ops) (app : MyApp)
    (env : Env) (request : Dict) (d1 : Option α) (d2 : Option β) :
    infer ops app env request d1 = infer ops app env request d2 := rfl

/-- Full evaluation of a SEGMENTATION call whose base result carries a
truthy logits path that exists on disk: the label is stored, the file is
filtered out of the filesystem, and the popped result is returned. -/
theorem infer_segmentation_eval {α : Type}
    (uriFn : String → String → String) (base : Env → Dict → Except Err (Result × Env))
    (app : MyApp) (env : Env) (request : Dict) (d : Option α)
    (result : Result) (env1 : Env) (l : String)
    (h1 : lookupInfer app request = some InferType.SEGMENTATION)
    (h2 : base env request = .ok (result, env1))
    (h3 : aget result.params "logits" = some l)
    (h4 : l ≠ "")
    (h5 : l ∈ env1.fs) :
    infer (stdOps uriFn base) app env request d
      = (.ok (popLogits result),
         ⟨aset env1.labels (aget request "image")
             (aset (labelsOf env1 (aget request "image")) "logits" ⟨l, []⟩),
          env1.fs.filter (fun p => !decide (p = l))⟩) := by
  simp [infer, inferPrepare, inferSave, stdOps_getLabelsE, stdOps_labelUriE,
        stdOps_saveLabelE, stdOps_unlinkE, stdOps_baseInferE, h1, h2, h3, h4,
        saveLabelStd, unlinkStd, h5, popLogits]

/-- C1: for a SEGMENTATION-kind task whose base result carries a (truthy)
`params.logits` path that exists on disk, the call saves a label tagged
`"logits"` with empty extra metadata in the datastore under the request's
image identifier, deletes the temporary file at that path, and returns the
result with `logits` removed from `params`. -/
theorem infer_segmentation_saves_and_unlinks_logits {α : Type}
    (uriFn : String → String → String) (base : Env → Dict → Except Err (Result × Env))
    (app : MyApp) (env : Env) (request : Dict) (d : Option α)
    (result : Result) (env1 : Env) (l : String)
    (h1 : lookupInfer app request = some InferType.SEGMENTATION)
    (h2 : base env request = .ok (result, env1))
    (h3 : aget result.params "logits" = some l)
    (h4 : l ≠ "")
    (h5 : l ∈ env1.fs) :
    (infer (stdOps uriFn base) app env request d).1 = .ok (popLogits result) ∧
    aget (popLogits result).params "logits" = none ∧
    aget (labelsOf (infer (stdOps uriFn base) app env request d).2 (aget request "image"))
        "logits" = some ⟨l, []⟩ ∧
    l ∉ (infer (stdOps uriFn base) app env request d).2.fs := by
  have hinfer := infer_segmentation_eval uriFn base app env request d result env1 l
    h1 h2 h3 h4 h5
  rw [hinfer]
  refine ⟨rfl, aget_apop_self _ _, ?_, ?_⟩
  · simp [labelsOf, aget_aset_self]
  · simp [List.mem_filter]

/-- Witness for C1: a concrete segmentation call whose base run creates
`tmp.npy`; afterwards the label is stored, the file is gone, and the
returned `params` is empty. -/
theorem infer_segmentation_saves_and_unlinks_logits_witness :
    ("tmp.npy" : String) ≠ "" ∧
    "tmp.npy" ∈ ({ labels := [], fs := ["tmp.npy"] } : Env).fs ∧
    ((infer (stdOps demoUri demoBaseSeg) demoApp env0 segReq (none : Option Unit)).1
        = .ok (popLogits ⟨[("logits", "tmp.npy")], [("label", "out.nii")]⟩) ∧
      aget (popLogits (⟨[("logits", "tmp.npy")],
          [("label", "out.nii")]⟩ : Result)).params "logits" = none ∧
      aget (labelsOf (infer (stdOps demoUri demoBaseSeg) demoApp env0 segReq
          (none : Option Unit)).2 (aget segReq "image")) "logits" = some ⟨"tmp.npy", []⟩ ∧
      "tmp.npy" ∉ (infer (stdOps demoUri demoBaseSeg) demoApp env0 segReq
          (none : Option Unit)).2.fs) :=
  ⟨by decide, by decide,
   infer_segmentation_saves_and_unlinks_logits demoUri demoBaseSeg demoApp env0 segReq
     (none : Option Unit)
     { params := [("logits", "tmp.npy")], rest := [("label", "out.nii")] }
     { labels := [], fs := ["tmp.npy"] } "tmp.npy"
     (by rfl) (by rfl) (by rfl) (by decide) (by decide)⟩

/-- C2: for a SCRIBBLES-kind task on an image whose saved labels contain
exactly one tagged `"logits"`, the request handed to the base inference
call is the original request with a `logits` key holding that label's
storage URI as resolved by the datastore. -/
theorem infer_scribbles_injects_logits_uri {α : Type}
    (uriFn : String → String → String) (base : Env → Dict → Except Err (Result × Env))
    (app : MyApp) (env : Env) (request : Dict) (d : Option α) (lab : String)
    (h1 : lookupInfer app request = some InferType.SCRIBBLES)
    (h2 : (getLabelsStd env (aget request "image")).filter
        (fun p => decide (p.1 = "logits")) = [("logits", lab)]) :
    inferPrepare (stdOps uriFn base) app env request
      = .ok (aset request "logits" (uriFn lab "logits")) ∧
    aget (aset request "logits" (uriFn lab "logits")) "logits"
      = some (uriFn lab "logits") ∧
    infer (stdOps uriFn base) app env request d
      = inferSave (stdOps uriFn base) app (aget request "image")
          (aset request "logits" (uriFn lab "logits"))
          (base env (aset request "logits" (uriFn lab "logits"))) env := by
  have hadd := addLogits_filter_single (stdOps uriFn base) env
    (getLabelsStd env (aget request "image")) request lab (uriFn lab "logits") h2 rfl
  have hprep : inferPrepare (stdOps uriFn base) app env request
      = .ok (aset request "logits" (uriFn lab "logits")) := by
    simp [inferPrepare, h1, stdOps_getLabelsE, hadd]
  exact ⟨hprep, aget_aset_self _ _ _, by simp [infer, hprep, stdOps_baseInferE]⟩

/-- Witness for C2: a concrete scribbles call on an image with a saved
`"logits"` label; the base call receives the request extended with the
resolved URI `stored.nii@logits`. -/
theorem infer_scribbles_injects_logits_uri_witness :
    lookupInfer demoApp scribReq = some InferType.SCRIBBLES ∧
    (getLabelsStd envWithLogits (aget scribReq "image")).filter
        (fun p => decide (p.1 = "logits")) = [("logits", "stored.nii")] ∧
    (inferPrepare (stdOps demoUri demoBaseScrib) demoApp envWithLogits scribReq
        = .ok (aset scribReq "logits" (demoUri "stored.nii" "logits")) ∧
      aget (aset scribReq "logits" (demoUri "stored.nii" "logits")) "logits"
        = some (demoUri "stored.nii" "logits") ∧
      infer (stdOps demoUri demoBaseScrib) demoApp envWithLogits scribReq (none : Option Unit)
        = inferSave (stdOps demoUri demoBaseScrib) demoApp (aget scribReq "image")
            (aset scribReq "logits" (demoUri "stored.nii" "logits"))
            (demoBaseScrib envWithLogits
              (aset scribReq "logits" (demoUri "stored.nii" "logits"))) envWithLogits) :=
  ⟨by rfl, by rfl,
   infer_scribbles_injects_logits_uri demoUri demoBaseScrib demoApp envWithLogits scribReq
     (none : Option Unit) "stored.nii" (by rfl) (by rfl)⟩

/-- C4: for a SCRIBBLES-kind task on an image with no saved `"logits"`
label, the request reaches the base inference call exactly as given: no
key is added or changed. -/
theorem infer_scribbles_no_saved_logits_request_unmodified {α : Type}
    (uriFn : String → String → String) (base : Env → Dict → Except Err (Result × Env))
    (app : MyApp) (env : Env) (request : Dict) (d : Option α)
    (h1 : lookupInfer app request = some InferType.SCRIBBLES)
    (h2 : ∀ p ∈ getLabelsStd env (aget request "image"), p.1 ≠ "logits") :
    inferPrepare (stdOps uriFn base) app env request = .ok request ∧
    infer (stdOps uriFn base) app env request d
      = inferSave (stdOps uriFn base) app (aget request "image") request
          (base env request) env := by
  have hadd := addLogits_no_logits (stdOps uriFn base) env
    (getLabelsStd env (aget request "image")) request h2
  have hprep : inferPrepare (stdOps uriFn base) app env request = .ok request := by
    simp [inferPrepare, h1, stdOps_getLabelsE, hadd]
  exact ⟨hprep, by simp [infer, hprep, stdOps_baseInferE]⟩

/-- Witness for C4: a concrete scribbles call against an empty datastore;
the base call receives the untouched request. -/
theorem infer_scribbles_no_saved_logits_request_unmodified_witness :
    getLabelsStd env0 (aget scribReq "image") = [] ∧
    (inferPrepare (stdOps demoUri demoBaseScrib) demoApp env0 scribReq = .ok scribReq ∧
      infer (stdOps demoUri demoBaseScrib) demoApp env0 scribReq (none : Option Unit)
        = inferSave (stdOps demoUri demoBaseScrib) demoApp (aget scribReq "image") scribReq
            (demoBaseScrib env0 scribReq) env0) :=
  ⟨by rfl,
   infer_scribbles_no_saved_logits_request_unmodified demoUri demoBaseScrib demoApp env0
     scribReq (none : Option Unit) (by rfl) (by simp [getLabelsStd, env0, labelsOf, aget])⟩

theorem inferPrepare_ok_preserves_keys (ops : Ops) (app : MyApp) (env : Env)
    (request request1 : Dict) (k : String) (hk : k ≠ "logits")
    (h : inferPrepare ops app env request = .ok request1) :
    aget request1 k = aget request k := by
  unfold inferPrepare at h
  split at h
  · cases h
  · split at h
    · split at h
      · cases h
      · exact addLogits_preserves_other_keys _ _ _ _ _ k hk h
    · simp at h
      subst h
      rfl

theorem lookupInfer_inferPrepare (ops : Ops) (app : MyApp) (env : Env)
    (request request1 : Dict)
    (h : inferPrepare ops app env request = .ok request1) :
    lookupInfer app request1 = lookupInfer app request := by
  have hm := inferPrepare_ok_preserves_keys ops app env request request1 "model"
    (by decide) h
  simp [lookupInfer, hm]

/-- C5 (amended): the temporary logits file lives only inside the
SEGMENTATION call that produced it — that same call stores the label and
deletes the file before returning — while a SCRIBBLES call that consumes
the stored label deletes nothing: it returns the external state exactly as
the base inference call left it. -/
theorem logits_label_file_lifetime {α : Type}
    (uriFn : String → String → String) (base : Env → Dict → Except Err (Result × Env))
    (app : MyApp) (env : Env) (request : Dict) (d : Option α) :
    (∀ result env1 l,
      lookupInfer app request = some InferType.SEGMENTATION →
      base env request = .ok (result, env1) →
      aget result.params "logits" = some l → l ≠ "" → l ∈ env1.fs →
      (infer (stdOps uriFn base) app env request d).2.fs
          = env1.fs.filter (fun p => !decide (p = l)) ∧
      l ∉ (infer (stdOps uriFn base) app env request d).2.fs) ∧
    (∀ request1 result env1,
      lookupInfer app request = some InferType.SCRIBBLES →
      inferPrepare (stdOps uriFn base) app env request = .ok request1 →
      base env request1 = .ok (result, env1) →
      (infer (stdOps uriFn base) app env request d).2 = env1) := by
  constructor
  · intro result env1 l h1 h2 h3 h4 h5
    have hinfer := infer_segmentation_eval uriFn base app env request d result env1 l
      h1 h2 h3 h4 h5
    rw [hinfer]
    exact ⟨rfl, by simp [List.mem_filter]⟩
  · intro request1 result env1 hscrib hprep hbase
    have hlk : lookupInfer app request1 = some InferType.SCRIBBLES :=
      (lookupInfer_inferPrepare _ _ _ _ _ hprep).trans hscrib
    have hstep : infer (stdOps uriFn base) app env request d
        = inferSave (stdOps uriFn base) app (aget request "image") request1
            (base env request1) env := by
      simp [infer, hprep, stdOps_baseInferE]
    rw [hstep]
    cases hg : aget result.params "logits" with
    | none => simp [inferSave, hbase, hg]
    | some l =>
        by_cases hl0 : l = ""
        · simp [inferSave, hbase, hg, hl0]
        · simp [inferSave, hbase, hg, hl0, hlk]

/-- Witness for C5's amended statement: after the concrete segmentation
call the file `tmp.npy` is gone, and a concrete scribbles call returns the
external state exactly as its base call left it. -/
theorem logits_label_file_lifetime_witness :
    ((infer (stdOps demoUri demoBaseSeg) demoApp env0 segReq (none : Option Unit)).2.fs
        = (⟨[], ["tmp.npy"]⟩ : Env).fs.filter (fun p => !decide (p = "tmp.npy")) ∧
      "tmp.npy" ∉ (infer (stdOps demoUri demoBaseSeg) demoApp env0 segReq
          (none : Option Unit)).2.fs) ∧
    (infer (stdOps demoUri demoBaseScrib) demoApp envWithLogits scribReq
        (none : Option Unit)).2 = envWithLogits :=
  ⟨(logits_label_file_lifetime demoUri demoBaseSeg demoApp env0 segReq
      (none : Option Unit)).1
      ⟨[("logits", "tmp.npy")], [("label", "out.nii")]⟩ ⟨[], ["tmp.npy"]⟩ "tmp.npy"
      (by rfl) (by rfl) (by rfl) (by decide) (by decide),
   (logits_label_file_lifetime demoUri demoBaseScrib demoApp envWithLogits scribReq
      (none : Option Unit)).2
      (aset scribReq "logits" (demoUri "stored.nii" "logits"))
      ⟨[("label", "final.nii")], []⟩ envWithLogits
      (by rfl) (by rfl) (by rfl)⟩

/-- Counterexample to C5 as stated: the claim has the logits file existing
on disk from the SEGMENTATION call that produced it until the next
SCRIBBLES call for that image, which deletes it.  In fact the producing
call itself deletes the file — right after this concrete segmentation call
(no scribbles call has run) the filesystem is already empty — and the
scribbles call deletes nothing: it hands back the external state
unchanged. -/
theorem logits_file_gone_before_any_scribbles_call :
    (infer (stdOps demoUri demoBaseSeg) demoApp env0 segReq (none : Option Unit)).2.fs
      = [] ∧
    "tmp.npy" ∉ (infer (stdOps demoUri demoBaseSeg) demoApp env0 segReq
        (none : Option Unit)).2.fs ∧
    (infer (stdOps demoUri demoBaseScrib) demoApp
        (infer (stdOps demoUri demoBaseSeg) demoApp env0 segReq (none : Option Unit)).2
        scribReq (none : Option Unit)).2
      = (infer (stdOps demoUri demoBaseSeg) demoApp env0 segReq (none : Option Unit)).2 :=
  ⟨by rfl, by decide, by rfl⟩

/-! Configuration parsing. -/

theorem strtobool_ok_cases (v : String) (n : Nat) (h : strtobool v = .ok n) :
    n = 0 ∨ n = 1 := by
  simp only [strtobool] at h
  split at h
  · right
    injection h with h
    exact h.symm
  · split at h
    · left
      injection h with h
      exact h.symm
    · cases h

/-- C6 (amended): whether the `"TTA"` strategy and scoring method are
registered is decided by `strtobool` on the `tta_enabled` value (default
`"false"`), not by literal comparison with `"true"`: both registries
contain `"TTA"` exactly when the value parses as true (case-insensitive
`y`/`yes`/`t`/`true`/`on`/`1`); a false-parsing value yields neither, and
an unparseable value fails construction.  `"random"` and `"first"` are
registered in every successful construction. -/
theorem tta_registered_iff_strtobool_true (app_dir studies : String) (conf : Dict)
    (infers : List (String × InferType)) (app : MyApp)
    (h : mkMyApp app_dir studies conf infers = .ok app) :
    (("TTA" ∈ (init_strategies app).map Prod.fst) ↔
        strtobool ((aget conf "tta_enabled").getD "false") = .ok 1) ∧
    (("TTA" ∈ (init_scoring_methods app).map Prod.fst) ↔
        strtobool ((aget conf "tta_enabled").getD "false") = .ok 1) ∧
    "random" ∈ (init_strategies app).map Prod.fst ∧
    "first" ∈ (init_strategies app).map Prod.fst := by
  unfold mkMyApp at h
  cases hb : strtobool ((aget conf "tta_enabled").getD "false") with
  | error e => rw [hb] at h; cases h
  | ok te =>
      rw [hb] at h
      cases hi : pyInt ((aget conf "tta_samples").getD "5") with
      | error e => rw [hi] at h; cases h
      | ok ts =>
          rw [hi] at h
          simp only [Except.ok.injEq] at h
          subst h
          rcases strtobool_ok_cases _ _ hb with h0 | h1
          · subst h0
            simp [init_strategies, init_scoring_methods, hb]
          · subst h1
            simp [init_strategies, init_scoring_methods, hb]

/-- Witness for C6's amended statement at the configuration
`tta_enabled="true"`: construction succeeds and the equivalences hold. -/
theorem tta_registered_iff_strtobool_true_witness :
    mkMyApp "a" "s" [("tta_enabled", "true")] [] = .ok demoTtaApp ∧
    ((("TTA" ∈ (init_strategies demoTtaApp).map Prod.fst) ↔
        strtobool ((aget ([("tta_enabled", "true")] : Dict) "tta_enabled").getD "false")
          = .ok 1) ∧
      (("TTA" ∈ (init_scoring_methods demoTtaApp).map Prod.fst) ↔
        strtobool ((aget ([("tta_enabled", "true")] : Dict) "tta_enabled").getD "false")
          = .ok 1) ∧
      "random" ∈ (init_strategies demoTtaApp).map Prod.fst ∧
      "first" ∈ (init_strategies demoTtaApp).map Prod.fst) :=
  ⟨by rfl,
   tta_registered_iff_strtobool_true "a" "s" [("tta_enabled", "true")] [] demoTtaApp
     (by rfl)⟩

/-- Counterexample to C6 as stated: the claim allows `"TTA"` to be
registered only for the configuration value `"true"`, but `strtobool` also
accepts `"yes"` (and `y`/`t`/`on`/`1`, case-insensitively): with
`tta_enabled="yes"` both registries contain `"TTA"`. -/
theorem tta_enabled_yes_also_registers_tta :
    "yes" ≠ "true" ∧
    (mkMyApp "app" "st" [("tta_enabled", "yes")] []).toOption.map
        (fun app => ((init_strategies app).map Prod.fst,
          (init_scoring_methods app).map Prod.fst))
      = some (["TTA", "random", "first"], ["TTA"]) :=
  ⟨by decide, by rfl⟩

/-- C7: a configuration lacking `tta_enabled` parses it as `"false"` (TTA
disabled), and one lacking `tta_samples` parses the sample count as `"5"`;
that count is the `num_samples` handed to the TTA scoring method. -/
theorem default_config_false_and_five (app_dir studies : String) (conf : Dict)
    (infers : List (String × InferType)) (app : MyApp)
    (h : mkMyApp app_dir studies conf infers = .ok app) :
    (aget conf "tta_enabled" = none → app.tta_enabled = 0) ∧
    (aget conf "tta_samples" = none →
      app.tta_samples = 5 ∧
      ∀ m ∈ init_scoring_methods app, m.1 = "TTA" → m.2.num_samples = 5) := by
  unfold mkMyApp at h
  cases hb : strtobool ((aget conf "tta_enabled").getD "false") with
  | error e => rw [hb] at h; cases h
  | ok te =>
      rw [hb] at h
      cases hi : pyInt ((aget conf "tta_samples").getD "5") with
      | error e => rw [hi] at h; cases h
      | ok ts =>
          rw [hi] at h
          simp only [Except.ok.injEq] at h
          subst h
          constructor
          · intro he
            rw [he] at hb
            have h0 : (Except.ok 0 : Except Err Nat) = .ok te := by
              rw [← hb]; rfl
            injection h0 with h0
            exact h0.symm
          · intro hs
            rw [hs] at hi
            have h5 : (Except.ok (5 : Int) : Except Err Int) = .ok ts := by
              rw [← hi]; rfl
            injection h5 with h5
            refine ⟨h5.symm, ?_⟩
            intro m hm _
            by_cases hte : te ≠ 0
            · simp [init_scoring_methods, hte] at hm
              rw [hm]
              exact h5.symm
            · simp [init_scoring_methods, hte] at hm

/-- Witness for C7: with `tta_enabled="true"` and no `tta_samples`, the
parsed sample count is 5; with the empty configuration, TTA is disabled. -/
theorem default_config_false_and_five_witness :
    mkMyApp "a" "s" [("tta_enabled", "true")] [] = .ok demoTtaApp ∧
    aget ([("tta_enabled", "true")] : Dict) "tta_samples" = none ∧
    demoTtaApp.tta_samples = 5 ∧
    mkMyApp "a" "s" [] [] = .ok demoDefaultApp ∧
    aget ([] : Dict) "tta_enabled" = none ∧
    demoDefaultApp.tta_enabled = 0 :=
  ⟨by rfl, by rfl,
   ((default_config_false_and_five "a" "s" [("tta_enabled", "true")] [] demoTtaApp
      (by rfl)).2 rfl).1,
   by rfl, by rfl,
   (default_config_false_and_five "a" "s" [] [] demoDefaultApp (by rfl)).1 rfl⟩

/-- C8: `infer` distinguishes no failure path: an error raised by any of
the external operations — `get_labels_by_image_id`, `get_label_uri`, the
base inference call, `save_label`, or the `os.unlink` of the temporary
logits file — propagates unchanged as the call's outcome; nothing is
retried, caught or transformed. -/
theorem infer_propagates_collaborator_errors {α : Type} (ops : Ops) (app : MyApp)
    (env : Env) (request : Dict) (d : Option α) (e : Err) :
    (lookupInfer app request = some InferType.SCRIBBLES →
      ops.getLabelsE env (aget request "image") = .error e →
      infer ops app env request d = (.error e, env)) ∧
    (∀ lab rest, lookupInfer app request = some InferType.SCRIBBLES →
      ops.getLabelsE env (aget request "image") = .ok (("logits", lab) :: rest) →
      ops.labelUriE env lab "logits" = .error e →
      infer ops app env request d = (.error e, env)) ∧
    (∀ request1, inferPrepare ops app env request = .ok request1 →
      ops.baseInferE env request1 = .error e →
      infer ops app env request d = (.error e, env)) ∧
    (∀ request1 result env1 l,
      inferPrepare ops app env request = .ok request1 →
      ops.baseInferE env request1 = .ok (result, env1) →
      aget result.params "logits" = some l → l ≠ "" →
      lookupInfer app request1 = some InferType.SEGMENTATION →
      ops.saveLabelE env1 (aget request "image") l "logits" [] = .error e →
      infer ops app env request d = (.error e, env1)) ∧
    (∀ request1 result env1 l env2,
      inferPrepare ops app env request = .ok request1 →
      ops.baseInferE env request1 = .ok (result, env1) →
      aget result.params "logits" = some l → l ≠ "" →
      lookupInfer app request1 = some InferType.SEGMENTATION →
      ops.saveLabelE env1 (aget request "image") l "logits" [] = .ok env2 →
      ops.unlinkE env2 l = .error e →
      infer ops app env request d = (.error e, env2)) := by
  refine ⟨?_, ?_, ?_, ?_, ?_⟩
  · intro hs hg
    simp [infer, inferPrepare, hs, hg]
  · intro lab rest hs hg hu
    simp [infer, inferPrepare, addLogits, hs, hg, hu]
  · intro request1 hp hb
    simp [infer, hp, inferSave, hb]
  · intro request1 result env1 l hp hb hg hl hty hsv
    simp [infer, hp, inferSave, hb, hg, hl, hty, hsv]
  · intro request1 result env1 l env2 hp hb hg hl hty hsv hu
    simp [infer, hp, inferSave, hb, hg, hl, hty, hsv, hu]

/-- Witness for C8: five concrete calls, one per failing operation; each
returns exactly the collaborator's error. -/
theorem infer_propagates_collaborator_errors_witness :
    infer failGetLabelsOps demoApp env0 scribReq (none : Option Unit)
      = (.error demoErr, env0) ∧
    infer failUriOps demoApp envWithLogits scribReq (none : Option Unit)
      = (.error demoErr, envWithLogits) ∧
    infer failBaseOps demoApp env0 scribReq (none : Option Unit)
      = (.error demoErr, env0) ∧
    infer failSaveOps demoApp env0 segReq (none : Option Unit)
      = (.error demoErr, ⟨[], ["tmp.npy"]⟩) ∧
    infer (stdOps demoUri demoBaseSegNoFile) demoApp env0 segReq (none : Option Unit)
      = (.error (.fileNotFound "missing.npy"),
         ⟨[(some "img1", [("logits", ⟨"missing.npy", []⟩)])], []⟩) :=
  ⟨(infer_propagates_collaborator_errors failGetLabelsOps demoApp env0 scribReq
      (none : Option Unit) demoErr).1 (by rfl) (by rfl),
   (infer_propagates_collaborator_errors failUriOps demoApp envWithLogits scribReq
      (none : Option Unit) demoErr).2.1 "stored.nii" [] (by rfl) (by rfl) (by rfl),
   (infer_propagates_collaborator_errors failBaseOps demoApp env0 scribReq
      (none : Option Unit) demoErr).2.2.1 scribReq (by rfl) (by rfl),
   (infer_propagates_collaborator_errors failSaveOps demoApp env0 segReq
      (none : Option Unit) demoErr).2.2.2.1 segReq
      ⟨[("logits", "tmp.npy")], [("label", "out.nii")]⟩ ⟨[], ["tmp.npy"]⟩ "tmp.npy"
      (by rfl) (by rfl) (by rfl) (by decide) (by rfl) (by rfl),
   (infer_propagates_collaborator_errors (stdOps demoUri demoBaseSegNoFile) demoApp env0
      segReq (none : Option Unit) (.fileNotFound "missing.npy")).2.2.2.2 segReq
      ⟨[("logits", "missing.npy")], []⟩ env0 "missing.npy"
      ⟨[(some "img1", [("logits", ⟨"missing.npy", []⟩)])], []⟩
      (by rfl) (by rfl) (by rfl) (by decide) (by rfl) (by rfl) (by rfl)⟩

end SpleenScribbles
